import Mathlib

/-!
Verification of the process-execution / log-streaming pipeline and the
checksum trust-verification protocol of `src/main.py`
(Crossover-Reset-Trial-GUI).  The Python functions are shallowly embedded
as executable Lean definitions; theorems about those definitions settle
the frozen claims.
-/

namespace CrossoverGUI

/-! ## Character-level utilities (Python `re.sub`, `str.rstrip`, `str.lower`) -/

/-- The escape character `\x1B` that opens an ANSI escape sequence. -/
def escChar : Char := Char.ofNat 27

/-- Python `str.rstrip()` whitespace set (ASCII part, which is all the
program ever produces). -/
def pyIsSpace (c : Char) : Bool :=
  c == ' ' || c == '\t' || c == '\n' || c == '\r' ||
  c == Char.ofNat 11 || c == Char.ofNat 12

/-- Body of the regex `\x1B\[[0-9;]*[mK]` after `\x1B[` has been consumed:
digits and semicolons, terminated by `m` or `K`.  Returns the remainder of
the list after the match, or `none` when the regex does not match here. -/
def ansiTail : List Char → Option (List Char)
  | [] => none
  | c :: rest =>
    if c = 'm' ∨ c = 'K' then some rest
    else if c.isDigit || c = ';' then ansiTail rest
    else none

/-- Fuelled worker for `stripAnsi`.  Each step consumes one unit of fuel
and at least one input character, so fuel equal to the input length never
runs out; the `0` case is unreachable from `stripAnsi`. -/
def stripAnsiF : Nat → List Char → List Char
  | 0, cs => cs
  | _ + 1, [] => []
  | fuel + 1, c :: rest =>
    if c = escChar then
      match rest with
      | '[' :: rest2 =>
        match ansiTail rest2 with
        | some rest3 => stripAnsiF fuel rest3
        | none => c :: stripAnsiF fuel rest
      | _ => c :: stripAnsiF fuel rest
    else c :: stripAnsiF fuel rest

/-- `re.sub(r'\x1B\[[0-9;]*[mK]', '', text)`: remove every ANSI
color/erase escape sequence, keeping all other characters. -/
def stripAnsi (cs : List Char) : List Char :=
  stripAnsiF cs.length cs

/-- Python `str.rstrip()` on a character list. -/
def rstripL (cs : List Char) : List Char :=
  (cs.reverse.dropWhile pyIsSpace).reverse

/-- `clean_text = re.sub(r'\x1B\[[0-9;]*[mK]', '', text).rstrip()`
(src/main.py line 559). -/
def cleanText (s : String) : String :=
  ⟨rstripL (stripAnsi s.toList)⟩

/-- Python `str.lower()` (ASCII behaviour, sufficient for this program). -/
def pyLower (s : String) : String :=
  ⟨s.toList.map Char.toLower⟩

/-- `pattern` is a literal prefix of `cs`. -/
def startsWithL : List Char → List Char → Bool
  | [], _ => true
  | _ :: _, [] => false
  | p :: ps, c :: cs => if p = c then startsWithL ps cs else false

/-- `needle` occurs as a contiguous substring of `hay`. -/
def infixOfL (needle : List Char) : List Char → Bool
  | [] => startsWithL needle []
  | c :: cs => startsWithL needle (c :: cs) || infixOfL needle cs

/-- Python substring test `tok in s`. -/
def hasTok (tok s : String) : Bool :=
  infixOfL tok.toList s.toList

/-! ## Line classification (src/main.py lines 562-566) -/

/-- `re.match(r'^\[(STEP|INFO|SUCCESS|WARNING|ERROR)\]', clean_text)` on a
character list: the five bracketed tokens are mutually exclusive prefixes,
so the anchored alternation is an if-chain of literal prefix tests. -/
def leadingTagL (cs : List Char) : Option String :=
  if startsWithL "[STEP]".toList cs then some "STEP"
  else if startsWithL "[INFO]".toList cs then some "INFO"
  else if startsWithL "[SUCCESS]".toList cs then some "SUCCESS"
  else if startsWithL "[WARNING]".toList cs then some "WARNING"
  else if startsWithL "[ERROR]".toList cs then some "ERROR"
  else none

/-- The leading-bracketed-tag match on a (cleaned) line. -/
def leadingTag (clean : String) : Option String :=
  leadingTagL clean.toList

/-- The keys of `TAG_COLORS` (src/main.py lines 182-186). -/
def tagKeys : List String :=
  ["STEP", "INFO", "SUCCESS", "WARNING", "ERROR", "CMD", "SCRIPT"]

/-- Lines 562-566 of `_append_text_to_gui`: the effective tag is the
leading-tag match when present, otherwise the caller-supplied `log_level`;
a tag outside `TAG_COLORS` falls back to `"CMD"`. -/
def classifyClean (clean log_level : String) : String :=
  let effective := (leadingTag clean).getD log_level
  if tagKeys.contains effective then effective else "CMD"

/-- Classification of a raw line as `_append_text_to_gui` performs it:
clean first, then match the leading tag. -/
def classifyLine (text log_level : String) : String :=
  classifyClean (cleanText text) log_level

/-! ## Success / error counting inside the streaming loop
(src/main.py lines 880-883) -/

structure Counters where
  err : Nat
  succ : Nat
deriving DecidableEq, Repr

/-- One iteration of the read loop: `if "[ERROR]" in line: error_count += 1`
then `if "[SUCCESS]" in line: success_count += 1` — substring containment
on the raw line. -/
def countLine (c : Counters) (line : String) : Counters :=
  let c1 := if hasTok "[ERROR]" line then { c with err := c.err + 1 } else c
  if hasTok "[SUCCESS]" line then { c1 with succ := c1.succ + 1 } else c1

/-- Counters after streaming a whole list of output lines. -/
def streamCounts (lines : List String) : Counters :=
  lines.foldl countLine ⟨0, 0⟩

/-! ## Log entries and the GUI log state -/

/-- One entry of the log queue: `{"text": ..., "log_level": ...}`
(src/main.py line 554). -/
structure LogEntry where
  text : String
  level : String
deriving DecidableEq, Repr

/-- Some classified log line in a list carries the ERROR level. -/
def hasErrorEntry (logs : List LogEntry) : Bool :=
  logs.any (fun e => e.level == "ERROR")

/-- The GUI-side log state: the cumulative unbounded history `full_log`
and the display textbox `output_box`, modelled as the list of
(clean line, applied tag) pairs inserted into it. -/
structure Gui where
  full_log : List String
  output_box : List (String × String)
deriving DecidableEq, Repr

/-- `_append_text_to_gui` (src/main.py lines 556-571): append the raw
text to `full_log`, clean it, drop it from the display when blank,
otherwise insert it with the classified tag. -/
def appendTextToGui (g : Gui) (text log_level : String) : Gui :=
  let g' : Gui := { g with full_log := g.full_log ++ [text] }
  let clean := cleanText text
  if clean = "" then g'
  else { g' with output_box := g'.output_box ++ [(clean, classifyClean clean log_level)] }

/-- The body of the `filter_log` loop (src/main.py lines 583-591) for one
history line, given the already-lowercased query: keep the line when the
query occurs in its lowercase form, then clean it, drop blanks, and
re-classify with default `"CMD"`. -/
def filterLine (q : String) (line : String) : Option (String × String) :=
  if infixOfL q.toList (pyLower line).toList then
    let clean := cleanText line
    if clean = "" then none
    else some (clean, classifyClean clean "CMD")
  else none

/-- `filter_log` (src/main.py lines 576-597): rebuild the display from the
full history, keeping the lines whose lowercase form contains the
lowercased query. -/
def filterLog (g : Gui) (query : String) : Gui :=
  { g with output_box := g.full_log.filterMap (filterLine (pyLower query)) }

/-- The tkinter `output_box.get("1.0", "end")` text: every inserted line
followed by the `"\n"` appended at insertion, plus the widget's implicit
trailing newline. -/
def outputBoxGet (g : Gui) : String :=
  String.join (g.output_box.map (fun e => e.1 ++ "\n")) ++ "\n"

/-- `export_log` (src/main.py lines 610-621) writes
`self.output_box.get("1.0", "end")` — the current display content — to
the chosen file. -/
def exportedText (g : Gui) : String :=
  outputBoxGet g

/-- Spec-side description (for the amended export claim): the history
lines whose lowercase form contains the lowercased query, cleaned, with
blank results dropped. -/
def displayedLines (history : List String) (query : String) : List String :=
  history.filterMap (fun line =>
    if infixOfL (pyLower query).toList (pyLower line).toList then
      (if cleanText line = "" then none else some (cleanText line))
    else none)

/-- Spec-side description (for the amended export claim): the displayed
lines each followed by a newline, plus the widget's trailing newline. -/
def displayedExport (history : List String) (query : String) : String :=
  String.join ((displayedLines history query).map (fun l => l ++ "\n")) ++ "\n"

/-! ## Checksum trust verification (src/main.py lines 661-751) -/

/-- State of the persisted checksum record file. -/
inductive StoredState
  | absent
  | unreadable
  | content (h : String)
deriving DecidableEq, Repr

/-- Environment of one `verify_checksum` call: the facts the surrounding
system supplies (script presence, whether hashing the script succeeds and
its resulting hex digest, the stored record, the `askyesno` answer, and
whether `_update_checksum_file`'s write succeeds). -/
structure VerifyEnv where
  script_found : Bool
  hashOk : Bool
  currentHash : String
  stored : StoredState
  consent : Bool
  writeOk : Bool
deriving DecidableEq, Repr

/-- Result of one `verify_checksum` call: the final `self.checksum_valid`
(`none` = Python `None`), the record state afterwards, and the classified
log lines emitted. -/
structure VerifyOut where
  checksum_valid : Option Bool
  stored : StoredState
  logs : List LogEntry
deriving DecidableEq, Repr

/-- Logs of `_update_checksum_file` failure (src/main.py lines 670-674). -/
def writeFailLog : LogEntry :=
  ⟨"[ERROR] Failed to write checksum file.", "ERROR"⟩

/-- `verify_checksum` (src/main.py lines 676-751), with
`_update_checksum_file` (lines 661-674) inlined as the `writeOk` flag.
Log texts containing locale-dependent `TXT` strings or interpolated
values are modelled by fixed representative strings; the claims depend
only on the levels. -/
def verify_checksum (env : VerifyEnv) : VerifyOut :=
  if !env.script_found then ⟨none, env.stored, []⟩
  else if !env.hashOk then
    -- `except FileNotFoundError` / `except Exception` around hashing
    ⟨none, env.stored, [⟨"[ERROR] Error during checksum verification/handling.", "ERROR"⟩]⟩
  else
    match env.stored with
    | .unreadable =>
      ⟨none, .unreadable, [⟨"[ERROR] Failed to read checksum file.", "ERROR"⟩]⟩
    | .content expected_hash =>
      if expected_hash == env.currentHash then
        ⟨some true, .content expected_hash, [⟨"[INFO] Checksum OK.", "INFO"⟩]⟩
      else
        let mismatchLogs : List LogEntry :=
          [⟨"[ERROR] Checksum mismatch for script.sh!", "ERROR"⟩,
           ⟨"[ERROR]   Expected : " ++ expected_hash, "ERROR"⟩,
           ⟨"[ERROR]   Calculated: " ++ env.currentHash, "ERROR"⟩]
        if env.consent then
          if env.writeOk then
            ⟨some true, .content env.currentHash,
             mismatchLogs ++ [⟨"[INFO] Checksum file updated.", "INFO"⟩]⟩
          else
            ⟨some false, .content expected_hash,
             mismatchLogs ++ [writeFailLog, ⟨"[ERROR] Failed to update checksum file.", "ERROR"⟩]⟩
        else
          ⟨some false, .content expected_hash,
           mismatchLogs ++ [⟨"[WARNING] Checksum mismatch ignored.", "WARNING"⟩]⟩
    | .absent =>
      let missingLog : LogEntry := ⟨"[WARNING] Checksum file not found.", "WARNING"⟩
      if env.consent then
        if env.writeOk then
          ⟨some true, .content env.currentHash,
           [missingLog, ⟨"[INFO] Checksum file created.", "INFO"⟩]⟩
        else
          ⟨none, .absent,
           [missingLog, writeFailLog, ⟨"[ERROR] Failed to create checksum file.", "ERROR"⟩]⟩
      else
        ⟨none, .absent, [missingLog, ⟨"[INFO] Checksum file not created.", "INFO"⟩]⟩

/-! ## Script status check (src/main.py lines 632-659) -/

/-- Outcome of the `os.chmod` repair attempt: either the call returns and
the follow-up `os.access` check reports `nowExec`, or the call raises. -/
inductive ChmodOutcome
  | ok (nowExec : Bool)
  | raises
deriving DecidableEq, Repr

/-- Result of `_check_script_status` (the `verify_checksum` call it makes
when the script exists is modelled separately by `verify_checksum`). -/
structure ScriptStatus where
  script_found : Bool
  script_executable : Bool
  logs : List LogEntry
deriving DecidableEq, Repr

/-- `_check_script_status` (src/main.py lines 632-652): when the script
exists but is not executable, try `os.chmod(.. | 0o111)` once; a raised
exception or a still-failing `os.access` leaves `script_executable`
false and logs an ERROR line. -/
def checkScriptStatus (pathExists initExec : Bool) (chmod : ChmodOutcome) : ScriptStatus :=
  if pathExists then
    if initExec then ⟨true, true, []⟩
    else
      let warn : LogEntry := ⟨"[WARNING] Script not executable. Trying to fix...", "WARNING"⟩
      match chmod with
      | .ok nowExec =>
        if nowExec then ⟨true, true, [warn, ⟨"[INFO] Made script executable.", "INFO"⟩]⟩
        else ⟨true, false, [warn, ⟨"[ERROR] Failed to make script executable.", "ERROR"⟩]⟩
      | .raises =>
        ⟨true, false, [warn, ⟨"[ERROR] Error changing script permissions.", "ERROR"⟩]⟩
  else ⟨false, false, [⟨"[ERROR] Script not found!", "ERROR"⟩]⟩

/-! ## The trigger gate of `run_bash_script` (src/main.py lines 847-861) -/

/-- The actions whose keys appear in the sensitive-action list of the
checksum gate (src/main.py line 855). -/
def sensitiveActions : List String := ["install", "uninstall", "execute"]

/-- What a trigger attempt did before (or instead of) spawning the worker:
whether the worker thread was started, whether the user was asked the
invalid-checksum question, and which log lines were emitted. -/
structure GateResult where
  spawned : Bool
  asked : Bool
  logs : List LogEntry
deriving DecidableEq, Repr

/-- The guard prefix of `run_bash_script` (src/main.py lines 847-861):
drop silently when busy; reject with an ERROR when the script is missing
or not executable; for a sensitive action with `checksum_valid is False`,
ask the user and reject with a WARNING on refusal; otherwise proceed to
spawn the worker. -/
def runBashScriptGate (current_action : Option String)
    (script_found script_executable : Bool) (checksum_valid : Option Bool)
    (action_key : String) (userConfirms : Bool) : GateResult :=
  if current_action.isSome then ⟨false, false, []⟩
  else if !script_found || !script_executable then
    ⟨false, false, [⟨"[ERROR] Cannot run script (not found or not executable).", "ERROR"⟩]⟩
  else if sensitiveActions.contains action_key && checksum_valid == some false then
    if userConfirms then ⟨true, true, []⟩
    else ⟨false, true,
      [⟨"[WARNING] Execution cancelled by user due to invalid checksum.", "WARNING"⟩]⟩
  else ⟨true, false, []⟩

/-! ## The worker task of `run_bash_script` (src/main.py lines 868-906) -/

/-- How one subprocess invocation can unfold, as seen by the `task`
closure: a normal run streaming `lines` and exiting with `code`;
`FileNotFoundError` raised by `Popen`; or any other exception raised
after `pre` lines were already streamed. -/
inductive RunOutcome
  | ok (lines : List String) (code : Int)
  | launchFail
  | streamFail (pre : List String)
deriving DecidableEq, Repr

/-- Everything the `task` closure leaves behind: the log lines pushed to
the queue in order, the final `return_code`, the final per-invocation
counters, and the exit code handed to `_finalize_script_run` by the
`finally` block. -/
structure TaskResult where
  logs : List LogEntry
  code : Int
  counters : Counters
  finalizeCode : Option Int
deriving DecidableEq, Repr

/-- The START marker line (src/main.py line 872). -/
def startEntry (action_key : String) : LogEntry :=
  ⟨"\n=== [" ++ action_key.toUpper ++ "] START ===\n", "STEP"⟩

/-- The END marker line with the recorded exit code (src/main.py line 902). -/
def endEntry (action_key : String) (code : Int) : LogEntry :=
  ⟨"=== [" ++ action_key.toUpper ++ "] END (Exit Code: " ++ toString code ++ ") ===\n", "STEP"⟩

/-- The `[CMD] Running: ...` line (src/main.py line 875). -/
def cmdEntry (scriptPath action_key lang : String) (bottles : Option String) : LogEntry :=
  ⟨"[CMD] Running: bash " ++ scriptPath ++ " " ++ action_key ++ " " ++ lang ++
    (match bottles with | some b => " " ++ b | none => ""), "CMD"⟩

/-- The `task` closure of `run_bash_script` (src/main.py lines 868-903):
log START and the command line, stream and count the output, then either
record the exit code and force the matching counter when it is still
zero, or — on an exception — log an ERROR, bump the error counter and
keep the sentinel `-1`; the `finally` block always logs the END marker
and schedules `_finalize_script_run` with the recorded code. -/
def taskRun (scriptPath action_key lang : String) (bottles : Option String)
    (outcome : RunOutcome) : TaskResult :=
  let startL := startEntry action_key
  let cmdL := cmdEntry scriptPath action_key lang bottles
  match outcome with
  | .ok lines code =>
    let c := streamCounts lines
    if code == 0 then
      let c' : Counters := if c.succ == 0 then { c with succ := 1 } else c
      ⟨startL :: cmdL :: lines.map (⟨·, "CMD"⟩) ++
         [⟨"[SUCCESS] Script finished successfully (Code: " ++ toString code ++ ").", "SUCCESS"⟩,
          endEntry action_key code],
       code, c', some code⟩
    else
      let c' : Counters := if c.err == 0 then { c with err := 1 } else c
      ⟨startL :: cmdL :: lines.map (⟨·, "CMD"⟩) ++
         [⟨"[ERROR] Script finished with error (Code: " ++ toString code ++ ").", "ERROR"⟩,
          endEntry action_key code],
       code, c', some code⟩
  | .launchFail =>
    ⟨startL :: cmdL ::
       [⟨"[ERROR] Command 'bash' or script '" ++ scriptPath ++ "' not found.", "ERROR"⟩,
        endEntry action_key (-1)],
     -1, ⟨1, 0⟩, some (-1)⟩
  | .streamFail pre =>
    let c := streamCounts pre
    ⟨startL :: cmdL :: pre.map (⟨·, "CMD"⟩) ++
       [⟨"[ERROR] Unexpected error during script execution.", "ERROR"⟩,
        endEntry action_key (-1)],
     -1, { c with err := c.err + 1 }, some (-1)⟩

/-! ## The single-flight coordinator (src/main.py lines 815-817, 847-849,
861, 905-911) -/

/-- The coordinator-relevant system state: `self.current_action`
(set by `_set_ui_busy`) and the number of worker threads in flight. -/
structure SysState where
  current_action : Option String
  inflight : Nat
deriving DecidableEq, Repr

/-- The events that change the coordinator state: a trigger attempt with
the environment the gate reads, and the completion callback
`_finalize_script_run` delivered by a worker's `finally` block. -/
inductive Event
  | trigger (action_key : String) (script_found script_executable : Bool)
      (checksum_valid : Option Bool) (userConfirms : Bool)
  | finalize
deriving DecidableEq, Repr

/-- One step of the coordinator.  A trigger spawns a worker (and sets
`current_action` via `_set_ui_busy(True, ...)`) exactly when the gate
lets it through; `_finalize_script_run` clears `current_action` via
`_set_ui_busy(False, ...)` and retires the worker. -/
def step (st : SysState) : Event → SysState
  | .trigger a f x cv conf =>
    if (runBashScriptGate st.current_action f x cv a conf).spawned then
      { current_action := some a, inflight := st.inflight + 1 }
    else st
  | .finalize =>
    if st.current_action.isSome then
      { current_action := none, inflight := st.inflight - 1 }
    else st

/-- States reachable from the initial idle state
(`self.current_action = None`, no worker running). -/
inductive Reachable : SysState → Prop
  | init : Reachable ⟨none, 0⟩
  | next {st : SysState} (e : Event) : Reachable st → Reachable (step st e)

/-! ## Helper lemmas -/

theorem countLine_err (c : Counters) (l : String) :
    (countLine c l).err = c.err + (if hasTok "[ERROR]" l then 1 else 0) := by
  simp only [countLine]
  split <;> split <;> simp

theorem countLine_succ (c : Counters) (l : String) :
    (countLine c l).succ = c.succ + (if hasTok "[SUCCESS]" l then 1 else 0) := by
  simp only [countLine]
  split <;> split <;> simp

theorem foldl_countLine_err (lines : List String) (c : Counters) :
    (lines.foldl countLine c).err = c.err + lines.countP (fun l => hasTok "[ERROR]" l) := by
  induction lines generalizing c with
  | nil => simp
  | cons l ls ih =>
    simp only [List.foldl_cons, List.countP_cons, ih, countLine_err]
    split <;> omega

theorem foldl_countLine_succ (lines : List String) (c : Counters) :
    (lines.foldl countLine c).succ = c.succ + lines.countP (fun l => hasTok "[SUCCESS]" l) := by
  induction lines generalizing c with
  | nil => simp
  | cons l ls ih =>
    simp only [List.foldl_cons, List.countP_cons, ih, countLine_succ]
    split <;> omega

theorem streamCounts_err (lines : List String) :
    (streamCounts lines).err = lines.countP (fun l => hasTok "[ERROR]" l) := by
  simpa using foldl_countLine_err lines ⟨0, 0⟩

theorem streamCounts_succ (lines : List String) :
    (streamCounts lines).succ = lines.countP (fun l => hasTok "[SUCCESS]" l) := by
  simpa using foldl_countLine_succ lines ⟨0, 0⟩

theorem rstripL_append (a : List Char) (c : Char) (hc : pyIsSpace c = false) (s : List Char) :
    rstripL ((a ++ [c]) ++ s) = (a ++ [c]) ++ rstripL s := by
  unfold rstripL
  rw [List.reverse_append, List.dropWhile_append]
  split
  · rename_i h
    rw [List.isEmpty_iff] at h
    rw [h, List.reverse_append]
    simp [List.dropWhile_cons, hc]
  · rename_i h
    simp [List.reverse_append]

theorem cleanText_err_lead (rest : List Char) :
    cleanText ⟨"[ERROR]".toList ++ rest⟩ = ⟨"[ERROR]".toList ++ rstripL (stripAnsi rest)⟩ := by
  unfold cleanText
  rw [show String.toList ⟨"[ERROR]".toList ++ rest⟩ = "[ERROR]".toList ++ rest from rfl]
  rw [show stripAnsi ("[ERROR]".toList ++ rest) = "[ERROR]".toList ++ stripAnsi rest from rfl]
  rw [show ("[ERROR]".toList : List Char) = "[ERROR".toList ++ [']'] from rfl]
  rw [rstripL_append _ _ (by decide)]

theorem classifyClean_ERROR (v : List Char) (d : String) :
    classifyClean ⟨"[ERROR]".toList ++ v⟩ d = "ERROR" := rfl

theorem filterMap_filterLine_fst (q : String) (l : List String) :
    ((l.filterMap (filterLine q)).map (fun e => e.1 ++ "\n")) =
    ((l.filterMap (fun line =>
        if infixOfL q.toList (pyLower line).toList then
          (if cleanText line = "" then none else some (cleanText line))
        else none)).map (fun s => s ++ "\n")) := by
  induction l with
  | nil => rfl
  | cons a l ih =>
    simp only [List.filterMap_cons, filterLine]
    by_cases h1 : infixOfL q.data (pyLower a).data = true
    · by_cases h2 : cleanText a = ""
      · simp [h1, h2, ih]
      · simp [h1, h2, ih]
    · simp [h1, ih]

theorem gate_busy (ca : Option String) (h : ca.isSome = true) (f x : Bool)
    (cv : Option Bool) (a : String) (conf : Bool) :
    runBashScriptGate ca f x cv a conf = ⟨false, false, []⟩ := by
  unfold runBashScriptGate
  rw [if_pos h]

theorem reachable_inflight (st : SysState) (h : Reachable st) :
    st.inflight = if st.current_action.isSome then 1 else 0 := by
  induction h with
  | init => rfl
  | @next st e hst ih =>
    cases e with
    | trigger a f x cv conf =>
      simp only [step]
      split
      · rename_i hsp
        have hnone : st.current_action.isSome = false := by
          cases hca : st.current_action.isSome
          · rfl
          · exfalso
            rw [gate_busy st.current_action hca] at hsp
            simp at hsp
        rw [hnone] at ih
        simp only [if_neg Bool.false_ne_true] at ih
        simp [ih]
      · exact ih
    | finalize =>
      simp only [step]
      split
      · rename_i hb
        rw [ih, if_pos hb]
        simp
      · rename_i hb
        rw [ih, if_neg hb]

theorem getLast?_append_pair (X : List LogEntry) (s e : LogEntry) :
    (X ++ [s, e]).getLast? = some e := by
  rw [show X ++ [s, e] = (X ++ [s]) ++ [e] by simp]
  exact List.getLast?_concat _

theorem getLast?_four (x y s e : LogEntry) :
    (x :: y :: [s, e]).getLast? = some e := rfl

/-! ## Claims -/

/-- C1 counterexample: the line `"x [ERROR] y"` contains the `[ERROR]`
token only in its interior, so the leading-bracketed-tag rule does not
classify it ERROR (it is displayed with the default `CMD` tag), yet the
streaming loop increments the error counter for it.  This refutes the
claim that the counter is incremented exactly when the line is classified
ERROR by the leading rule. -/
theorem C1_counterexample :
    (streamCounts ["x [ERROR] y"]).err = 1 ∧
    leadingTag (cleanText "x [ERROR] y") ≠ some "ERROR" ∧
    classifyLine "x [ERROR] y" "CMD" = "CMD" := by
  decide

/-- C1 (amended): during the streaming loop the running error counter is
incremented exactly for the lines that CONTAIN the token `[ERROR]` as a
substring anywhere, and the success counter exactly for the lines that
contain `[SUCCESS]`; the leading-tag display classification plays no role
in counting. -/
theorem C1_substring_counting (lines : List String) :
    (streamCounts lines).err = lines.countP (fun l => hasTok "[ERROR]" l) ∧
    (streamCounts lines).succ = lines.countP (fun l => hasTok "[SUCCESS]" l) :=
  ⟨streamCounts_err lines, streamCounts_succ lines⟩

/-- C4: a line literally beginning with the token `[ERROR]` is tagged
ERROR regardless of its trailing content, and a line whose cleaned form
matches none of the recognized leading tokens retains the
caller-supplied default tag (for any default drawn from the tag table). -/
theorem C4_leading_classification (rest : List Char) (d line default : String)
    (hkey : tagKeys.contains default = true)
    (hnone : leadingTag (cleanText line) = none) :
    classifyLine ⟨"[ERROR]".toList ++ rest⟩ d = "ERROR" ∧
    classifyLine line default = default := by
  constructor
  · unfold classifyLine
    rw [cleanText_err_lead]
    exact classifyClean_ERROR _ _
  · unfold classifyLine classifyClean
    rw [hnone]
    simp only [Option.getD_none]
    rw [if_pos hkey]

/-- C4 witness: `"[ERROR] boom"` is tagged ERROR, and the unrecognized
line `"hello"` keeps the default `CMD` tag. -/
theorem C4_witness :
    classifyLine ⟨"[ERROR]".toList ++ " boom".toList⟩ "CMD" = "ERROR" ∧
    classifyLine "hello" "CMD" = "CMD" :=
  ⟨(C4_leading_classification " boom".toList "CMD" "hello" "CMD" (by decide) (by decide)).1,
   (C4_leading_classification " boom".toList "CMD" "hello" "CMD" (by decide) (by decide)).2⟩

/-- C5 counterexample: a subprocess that exits 0 after emitting two lines
holding `[SUCCESS]` only in their interior emits zero SUCCESS-classified
lines (by the leading-tag rule), yet the final success counter is 2, not
1 — the forcing to 1 only applies when the substring counter stayed 0. -/
theorem C5_counterexample :
    (∀ l ∈ ["a [SUCCESS] b", "c [SUCCESS] d"], leadingTag (cleanText l) ≠ some "SUCCESS") ∧
    (taskRun "script.sh" "execute" "it" none
      (.ok ["a [SUCCESS] b", "c [SUCCESS] d"] 0)).counters.succ = 2 := by
  decide

/-- C5 (amended): for every invocation whose subprocess exits 0 after
emitting zero lines CONTAINING the `[SUCCESS]` token, the final success
counter is exactly 1; symmetrically, for a nonzero exit code after zero
lines containing `[ERROR]`, the final error counter is exactly 1. -/
theorem C5_forced_counters :
    (∀ (sp a lg : String) (b : Option String) (lines : List String),
       (∀ l ∈ lines, hasTok "[SUCCESS]" l = false) →
       (taskRun sp a lg b (.ok lines 0)).counters.succ = 1) ∧
    (∀ (sp a lg : String) (b : Option String) (lines : List String) (code : Int),
       code ≠ 0 → (∀ l ∈ lines, hasTok "[ERROR]" l = false) →
       (taskRun sp a lg b (.ok lines code)).counters.err = 1) := by
  constructor
  · intro sp a lg b lines h
    have hs : (streamCounts lines).succ = 0 := by
      rw [streamCounts_succ]
      exact List.countP_eq_zero.mpr (by intro x hx; simp [h x hx])
    simp [taskRun, hs]
  · intro sp a lg b lines code hcode h
    have hs : (streamCounts lines).err = 0 := by
      rw [streamCounts_err]
      exact List.countP_eq_zero.mpr (by intro x hx; simp [h x hx])
    simp [taskRun, beq_iff_eq, hcode, hs]

/-- C5 witness: a run streaming the single token-free line `"hi"` gets a
success counter of exactly 1 on exit 0 and an error counter of exactly 1
on exit 2. -/
theorem C5_forced_counters_witness :
    (taskRun "s" "execute" "it" none (.ok ["hi"] 0)).counters.succ = 1 ∧
    (taskRun "s" "execute" "it" none (.ok ["hi"] 2)).counters.err = 1 :=
  ⟨C5_forced_counters.1 "s" "execute" "it" none ["hi"] (by decide),
   C5_forced_counters.2 "s" "execute" "it" none ["hi"] 2 (by decide) (by decide)⟩

/-- C2 counterexample: with history `["[INFO] alpha", "[INFO] beta"]` and
the display filter `"beta"` active, the exported file content is the
filtered display, not the newline-joined full history — export is NOT
independent of the current display filter and not the verbatim history. -/
theorem C2_counterexample :
    exportedText (filterLog (appendTextToGui (appendTextToGui ⟨[], []⟩ "[INFO] alpha" "INFO")
        "[INFO] beta" "INFO") "beta") ≠
      String.intercalate "\n" (filterLog (appendTextToGui (appendTextToGui ⟨[], []⟩
        "[INFO] alpha" "INFO") "[INFO] beta" "INFO") "beta").full_log := by
  decide

/-- C2 (amended): the export operation writes the current display
content, not the full history: for every log history and filter query,
the exported text equals the ANSI-cleaned, right-trimmed, non-blank
history lines that contain the (case-insensitively matched) query, each
followed by a newline, plus the display widget's trailing newline. -/
theorem C2_export_is_display (g : Gui) (query : String) :
    exportedText (filterLog g query) = displayedExport g.full_log query := by
  unfold exportedText outputBoxGet filterLog displayedExport displayedLines
  simp only
  rw [filterMap_filterLine_fst]

/-- C3 counterexample: the script exists, is not executable, and the
chmod repair raises; an ERROR is logged, `script_executable` stays false,
and a subsequent trigger does NOT attempt the subprocess launch —
`run_bash_script` rejects it with an ERROR before any spawn, refuting
"the subprocess launch is still attempted". -/
theorem C3_counterexample :
    (checkScriptStatus true false ChmodOutcome.raises).script_executable = false ∧
    hasErrorEntry (checkScriptStatus true false ChmodOutcome.raises).logs = true ∧
    (runBashScriptGate none
       (checkScriptStatus true false ChmodOutcome.raises).script_found
       (checkScriptStatus true false ChmodOutcome.raises).script_executable
       (some true) "execute" true).spawned = false ∧
    hasErrorEntry (runBashScriptGate none
       (checkScriptStatus true false ChmodOutcome.raises).script_found
       (checkScriptStatus true false ChmodOutcome.raises).script_executable
       (some true) "execute" true).logs = true := by
  decide

/-- C3 (amended): when the script exists but is not executable, the
runner attempts once to add executable permission bits; if that attempt
fails (the chmod raises, or the file is still not executable afterwards),
an error is logged and the run attempt IS aborted by that failure — every
subsequent trigger returns before spawning any subprocess. -/
theorem C3_fix_failure_aborts (chmodR : ChmodOutcome) (cv : Option Bool)
    (a : String) (conf : Bool)
    (hfail : (checkScriptStatus true false chmodR).script_executable = false) :
    hasErrorEntry (checkScriptStatus true false chmodR).logs = true ∧
    (runBashScriptGate none (checkScriptStatus true false chmodR).script_found
       (checkScriptStatus true false chmodR).script_executable cv a conf).spawned = false := by
  cases chmodR with
  | ok nowExec =>
    cases nowExec
    · exact ⟨by decide, rfl⟩
    · simp [checkScriptStatus] at hfail
  | raises => exact ⟨by decide, rfl⟩

/-- C3 witness: chmod reports success but the script is still not
executable — an error is logged and the trigger spawns nothing. -/
theorem C3_fix_failure_aborts_witness :
    (checkScriptStatus true false (ChmodOutcome.ok false)).script_executable = false ∧
    (hasErrorEntry (checkScriptStatus true false (ChmodOutcome.ok false)).logs = true ∧
     (runBashScriptGate none (checkScriptStatus true false (ChmodOutcome.ok false)).script_found
        (checkScriptStatus true false (ChmodOutcome.ok false)).script_executable
        (some true) "install" false).spawned = false) :=
  ⟨by decide, C3_fix_failure_aborts (ChmodOutcome.ok false) (some true) "install" false (by decide)⟩

/-- C6: in every reachable coordinator state at most one ActionInvocation
is in flight, and triggering any action while the coordinator is busy is
a silent no-op: the state is unchanged (no new invocation, no spawn), the
gate does not spawn, and no log line is emitted. -/
theorem C6_single_flight (st : SysState) (h : Reachable st) :
    st.inflight ≤ 1 ∧
    (∀ (a : String) (f x : Bool) (cv : Option Bool) (conf : Bool),
       st.current_action.isSome = true →
       step st (.trigger a f x cv conf) = st ∧
       (runBashScriptGate st.current_action f x cv a conf).spawned = false ∧
       (runBashScriptGate st.current_action f x cv a conf).logs = []) := by
  constructor
  · rw [reachable_inflight st h]
    split <;> omega
  · intro a f x cv conf hb
    have hg := gate_busy st.current_action hb f x cv a conf
    exact ⟨by simp [step, hg], by rw [hg], by rw [hg]⟩

/-- C6 witness: after one successful trigger the busy state has one
invocation in flight, and a second trigger leaves it unchanged. -/
theorem C6_single_flight_witness :
    (step ⟨none, 0⟩ (.trigger "execute" true true none true)).inflight ≤ 1 ∧
    step (step ⟨none, 0⟩ (.trigger "execute" true true none true))
        (.trigger "install" true true none true)
      = step ⟨none, 0⟩ (.trigger "execute" true true none true) :=
  ⟨(C6_single_flight _ (Reachable.next _ Reachable.init)).1,
   ((C6_single_flight _ (Reachable.next _ Reachable.init)).2 "install" true true none true
      (by decide)).1⟩

/-- C7: when the stored checksum record exists and differs from the
current hash: granted consent with a successful write yields "trusted"
with the record now equal to the current hash; granted consent with a
failed write yields "untrusted" and an error-classified log line; denied
consent yields "untrusted" with the record unchanged, and an immediate
re-verification returns the same "untrusted" result and the same stored
hash. -/
theorem C7_mismatch_protocol (exp cur : String) (hne : (exp == cur) = false) (wk : Bool) :
    ((verify_checksum ⟨true, true, cur, .content exp, true, true⟩).checksum_valid = some true ∧
     (verify_checksum ⟨true, true, cur, .content exp, true, true⟩).stored = .content cur) ∧
    ((verify_checksum ⟨true, true, cur, .content exp, true, false⟩).checksum_valid = some false ∧
     hasErrorEntry (verify_checksum ⟨true, true, cur, .content exp, true, false⟩).logs = true) ∧
    ((verify_checksum ⟨true, true, cur, .content exp, false, wk⟩).checksum_valid = some false ∧
     (verify_checksum ⟨true, true, cur, .content exp, false, wk⟩).stored = .content exp ∧
     (verify_checksum ⟨true, true, cur,
        (verify_checksum ⟨true, true, cur, .content exp, false, wk⟩).stored, false,
        wk⟩).checksum_valid = some false ∧
     (verify_checksum ⟨true, true, cur,
        (verify_checksum ⟨true, true, cur, .content exp, false, wk⟩).stored, false,
        wk⟩).stored = .content exp) := by
  simp [verify_checksum, hne, hasErrorEntry]

/-- C7 witness: stored hash `"a"`, current hash `"b"`. -/
theorem C7_mismatch_protocol_witness :
    (verify_checksum ⟨true, true, "b", .content "a", true, true⟩).checksum_valid = some true ∧
    (verify_checksum ⟨true, true, "b", .content "a", true, false⟩).checksum_valid = some false ∧
    (verify_checksum ⟨true, true, "b", .content "a", false, false⟩).checksum_valid = some false :=
  ⟨(C7_mismatch_protocol "a" "b" (by decide) false).1.1,
   (C7_mismatch_protocol "a" "b" (by decide) false).2.1.1,
   (C7_mismatch_protocol "a" "b" (by decide) false).2.2.1⟩

/-- C8: every run of the worker task logs the START marker first and the
END marker carrying the recorded exit code last, and always hands that
code to the finalization callback; on a launch failure or an exception
during streaming the code is the sentinel `-1` and an ERROR line is
logged — no path ends without the terminal notification. -/
theorem C8_run_markers (sp a lg : String) (b : Option String) (outcome : RunOutcome) :
    (taskRun sp a lg b outcome).logs.head? = some (startEntry a) ∧
    (taskRun sp a lg b outcome).logs.getLast? = some (endEntry a (taskRun sp a lg b outcome).code) ∧
    (taskRun sp a lg b outcome).finalizeCode = some (taskRun sp a lg b outcome).code ∧
    ((outcome = .launchFail ∨ ∃ pre, outcome = .streamFail pre) →
      (taskRun sp a lg b outcome).code = -1 ∧
      hasErrorEntry (taskRun sp a lg b outcome).logs = true) := by
  cases outcome with
  | ok lines code =>
    refine ⟨?_, ?_, ?_, ?_⟩
    · by_cases h : (code == 0) = true <;> simp [taskRun, h]
    · by_cases h : (code == 0) = true
      · simp only [taskRun, if_pos h]
        exact getLast?_append_pair _ _ _
      · simp only [taskRun, if_neg h]
        exact getLast?_append_pair _ _ _
    · by_cases h : (code == 0) = true <;> simp [taskRun, h]
    · rintro (h | ⟨pre, h⟩) <;> simp at h
  | launchFail =>
    refine ⟨rfl, ?_, rfl, ?_⟩
    · exact getLast?_four _ _ _ _
    · intro _
      exact ⟨rfl, by simp [taskRun, hasErrorEntry]⟩
  | streamFail pre =>
    refine ⟨rfl, ?_, rfl, ?_⟩
    · exact getLast?_append_pair _ _ _
    · intro _
      refine ⟨rfl, ?_⟩
      simp [taskRun, hasErrorEntry]

/-- C8 witness: a launch failure ends with the sentinel `-1` and an ERROR
log line. -/
theorem C8_run_markers_witness :
    (taskRun "s" "execute" "it" none .launchFail).code = -1 ∧
    hasErrorEntry (taskRun "s" "execute" "it" none .launchFail).logs = true :=
  (C8_run_markers "s" "execute" "it" none .launchFail).2.2.2 (Or.inl rfl)

/-- C9: for every sensitive action trigger in an otherwise runnable state,
an untrusted checksum (`checksum_valid is False`) spawns the subprocess
only after user confirmation and is rejected before any spawn when
confirmation is denied, while an undetermined checksum (`None`) proceeds
to spawn without consulting the user at all. -/
theorem C9_trust_gate (a : String) (ha : sensitiveActions.contains a = true) (conf : Bool) :
    ((runBashScriptGate none true true (some false) a false).spawned = false ∧
     (runBashScriptGate none true true (some false) a false).asked = true) ∧
    ((runBashScriptGate none true true (some false) a true).spawned = true ∧
     (runBashScriptGate none true true (some false) a true).asked = true) ∧
    ((runBashScriptGate none true true none a conf).spawned = true ∧
     (runBashScriptGate none true true none a conf).asked = false) := by
  have ha' : a ∈ sensitiveActions := by simpa using ha
  simp [runBashScriptGate, ha']

/-- C9 witness: the `"execute"` action. -/
theorem C9_trust_gate_witness :
    (runBashScriptGate none true true (some false) "execute" false).spawned = false ∧
    (runBashScriptGate none true true none "execute" false).spawned = true :=
  ⟨(C9_trust_gate "execute" (by decide) false).1.1,
   (C9_trust_gate "execute" (by decide) false).2.2.1⟩

/-- C10: when no stored record exists, the user consents to creating one,
and the write fails, `verify_checksum` leaves the trust state
undetermined (`None`, neither trusted nor untrusted), logs an
error-classified line, and the trust gate does not block a subsequent
sensitive action: it spawns without asking for extra confirmation. -/
theorem C10_missing_record_write_failure (cur a : String)
    (ha : sensitiveActions.contains a = true) (conf : Bool) :
    (verify_checksum ⟨true, true, cur, .absent, true, false⟩).checksum_valid = none ∧
    hasErrorEntry (verify_checksum ⟨true, true, cur, .absent, true, false⟩).logs = true ∧
    (runBashScriptGate none true true
       (verify_checksum ⟨true, true, cur, .absent, true, false⟩).checksum_valid a conf).spawned
       = true ∧
    (runBashScriptGate none true true
       (verify_checksum ⟨true, true, cur, .absent, true, false⟩).checksum_valid a conf).asked
       = false := by
  simp [verify_checksum, runBashScriptGate, hasErrorEntry, writeFailLog]

/-- C10 witness: current hash `"h"`, sensitive action `"install"`. -/
theorem C10_missing_record_write_failure_witness :
    (verify_checksum ⟨true, true, "h", .absent, true, false⟩).checksum_valid = none ∧
    hasErrorEntry (verify_checksum ⟨true, true, "h", .absent, true, false⟩).logs = true :=
  ⟨(C10_missing_record_write_failure "h" "install" (by decide) true).1,
   (C10_missing_record_write_failure "h" "install" (by decide) true).2.1⟩

end CrossoverGUI
